import Mathlib

/-!
Verification of the adjustable-range / video-skimmer logic of the
`napari-deeplabcut` widgets.

The Python code is embedded shallowly:

* `InclusiveInterval` (from `misc.py`) becomes a Lean structure over `Int`
  (the Python code casts every bound with `int(...)`; the claims quantify
  over integers, where that cast is the identity).
* Methods that can `raise ValueError` become functions into
  `Except String α`: an `.error` result models the raised exception, and
  — exactly as in Python, where every `raise` in this code happens before
  any attribute assignment — the caller's state is untouched on error.
* Qt widget primitives (line edits, sliders, spin boxes, signals) are out
  of scope of the source repository; they are modelled as plain record
  fields written by the code under verification.  The `rangeChanged`
  signal is modelled as a counter `emits` incremented on each emission.
-/

namespace NapariDLC

/-- Embeds `misc.InclusiveInterval`'s data: the two integer bounds
`_min` and `_max`. -/
structure InclusiveInterval where
  min : Int
  max : Int
deriving Repr, DecidableEq

namespace InclusiveInterval

/-- Embeds `InclusiveInterval.set`: validates `min_ <= max_` before
assigning both fields (hence the update is atomic: on error nothing is
assigned). -/
def set (I : InclusiveInterval) (min_ max_ : Int) :
    Except String InclusiveInterval :=
  if min_ > max_ then .error "min_ cannot be greater than max_"
  else .ok { I with min := min_, max := max_ }

/-- Embeds `InclusiveInterval.__init__`: initialises `_min = _max = 0`
then delegates to `set`. -/
def construct (min_ max_ : Int) : Except String InclusiveInterval :=
  set { min := 0, max := 0 } min_ max_

/-- Embeds the `min` property setter: fails if the new min would cross
`_max`. -/
def setMin (I : InclusiveInterval) (new_min : Int) :
    Except String InclusiveInterval :=
  if new_min > I.max then .error "min cannot be larger than max"
  else .ok { I with min := new_min }

/-- Embeds the `max` property setter: fails if the new max would cross
`_min`. -/
def setMax (I : InclusiveInterval) (new_max : Int) :
    Except String InclusiveInterval :=
  if new_max < I.min then .error "max cannot be less than min"
  else .ok { I with max := new_max }

/-- Embeds `InclusiveInterval.normalize` called with an
`InclusiveInterval` argument (the only call form used in this repository):
`if self._max < max_: self.max = max_` then
`if self._min > min_: self.min = min_`, each through the checking
property setter. -/
def normalize (I J : InclusiveInterval) : Except String InclusiveInterval := do
  let I1 ← if I.max < J.max then I.setMax J.max else .ok I
  let I2 ← if I1.min > J.min then I1.setMin J.min else .ok I1
  .ok I2

/-- Embeds `InclusiveInterval.contains` on a number argument:
`self.min <= num <= self.max`. -/
def contains (I : InclusiveInterval) (num : Int) : Bool :=
  I.min ≤ num && num ≤ I.max

/-- Embeds `InclusiveInterval.contains` on an `InclusiveInterval`
argument: `self.min <= num.min and num.max <= self.max`. -/
def containsIv (I J : InclusiveInterval) : Bool :=
  I.min ≤ J.min && J.max ≤ I.max

/-- Embeds `InclusiveInterval.__str__`: the rendering `[min, max]` used
in error messages. -/
def str (I : InclusiveInterval) : String :=
  "[" ++ toString I.min ++ ", " ++ toString I.max ++ "]"

end InclusiveInterval

/-- Embeds the state of `_inputs.AdjustableRangeSlider`: the current
range `_range`, the outer `_range_bounds`, the text of the two line
edits, the Qt slider's range, and a counter of `rangeChanged`
emissions. -/
structure AdjustableRangeSlider where
  range : InclusiveInterval
  range_bounds : InclusiveInterval
  range_min_line_edit : String
  range_max_line_edit : String
  slider_min : Int
  slider_max : Int
  emits : Nat
deriving Repr, DecidableEq

/-- Accumulator pass of a decimal-digit parser: consumes the remaining
characters, failing on the first non-digit. -/
def decDigits : List Char → Nat → Option Nat
  | [], acc => some acc
  | c :: cs, acc =>
    if '0' ≤ c ∧ c ≤ '9' then decDigits cs (acc * 10 + (c.toNat - '0'.toNat))
    else none

/-- Models Python `int(text)` on the texts admitted by `PyIntValidator`
(`_is_int` in `_inputs.py`): an optional `+`/`-` sign followed by one or
more ASCII digits; any other text raises, modelled as `none`. -/
def pyInt? (text : String) : Option Int :=
  match text.toList with
  | [] => none
  | '+' :: cs => if cs = [] then none else (decDigits cs 0).map Int.ofNat
  | '-' :: cs =>
    if cs = [] then none else (decDigits cs 0).map (fun n => -Int.ofNat n)
  | cs => (decDigits cs 0).map Int.ofNat

namespace AdjustableRangeSlider

/-- Embeds `AdjustableRangeSlider.__init__`: both intervals start at
`[0, 0]`, both line edits read `"0"`; the Qt slider keeps its toolkit
default range `[0, 99]` until the code first calls `setRange`. -/
def init : AdjustableRangeSlider where
  range := ⟨0, 0⟩
  range_bounds := ⟨0, 0⟩
  range_min_line_edit := "0"
  range_max_line_edit := "0"
  slider_min := 0
  slider_max := 99
  emits := 0

/-- Embeds `AdjustableRangeSlider._update_widgets`: writes the current
range back into the two line edits and the slider. -/
def update_widgets (s : AdjustableRangeSlider) : AdjustableRangeSlider :=
  { s with
    range_min_line_edit := toString s.range.min
    range_max_line_edit := toString s.range.max
    slider_min := s.range.min
    slider_max := s.range.max }

/-- Embeds `AdjustableRangeSlider._min_edited`: reads the committed text
of the min line edit with `int(...)`; reverts the field if the candidate
exceeds the current max or escapes the range bounds, otherwise commits
it through the checking `min` setter, updates the slider and emits
`rangeChanged`. -/
def min_edited (s : AdjustableRangeSlider) :
    Except String AdjustableRangeSlider := do
  let new_min ←
    match pyInt? s.range_min_line_edit with
    | some n => .ok n
    | none => .error "invalid literal for int()"
  if new_min > s.range.max || !(s.range_bounds.contains new_min) then
    .ok { s with range_min_line_edit := toString s.range.min }
  else do
    let r ← s.range.setMin new_min
    .ok { s with
      range := r
      slider_min := r.min
      slider_max := r.max
      emits := s.emits + 1 }

/-- Embeds `AdjustableRangeSlider._max_edited`, symmetric to
`min_edited`. -/
def max_edited (s : AdjustableRangeSlider) :
    Except String AdjustableRangeSlider := do
  let new_max ←
    match pyInt? s.range_max_line_edit with
    | some n => .ok n
    | none => .error "invalid literal for int()"
  if new_max < s.range.min || !(s.range_bounds.contains new_max) then
    .ok { s with range_max_line_edit := toString s.range.max }
  else do
    let r ← s.range.setMax new_max
    .ok { s with
      range := r
      slider_min := r.min
      slider_max := r.max
      emits := s.emits + 1 }

/-- A user commit of integer text in the min field: the line edit now
holds the committed text, and `editingFinished` fires `_min_edited`. -/
def commit_min (s : AdjustableRangeSlider) (text : String) :
    Except String AdjustableRangeSlider :=
  min_edited { s with range_min_line_edit := text }

/-- Embeds `AdjustableRangeSlider.set_range`. -/
def set_range (s : AdjustableRangeSlider) (min_ max_ : Int)
    (stretch_bounds : Bool := false) (emit : Bool := true) :
    Except String AdjustableRangeSlider := do
  -- raises a ValueError if min_ > max_
  let new_range ← InclusiveInterval.construct min_ max_
  let s ←
    if stretch_bounds then do
      -- since we are stretching range_bounds, no requirement on new_range
      let b ← s.range_bounds.normalize new_range
      .ok { s with range := new_range, range_bounds := b }
    else if s.range_bounds.containsIv new_range then
      .ok { s with range := new_range }
    else
      .error ("When stretch_bounds=False, new range [" ++ toString min_ ++
        ", " ++ toString max_ ++ "] must fit within absolute range " ++
        s.range_bounds.str)
  let s := if emit then { s with emits := s.emits + 1 } else s
  .ok s.update_widgets

/-- Embeds `AdjustableRangeSlider.set_range_bounds`. -/
def set_range_bounds (s : AdjustableRangeSlider) (min_ max_ : Int)
    (emit : Bool := true) : Except String AdjustableRangeSlider := do
  -- raises a ValueError if min_ > max_
  let new_bounds ← InclusiveInterval.construct min_ max_
  if new_bounds = s.range_bounds then
    .ok s
  else do
    let r ← s.range.normalize new_bounds
    let s := { s with range_bounds := new_bounds, range := r }
    let s := if emit then { s with emits := s.emits + 1 } else s
    .ok s.update_widgets

end AdjustableRangeSlider

/-- Models `os.path.splitext(path)[-1]` on a path given as a character
list: the suffix of the last path component starting at its last dot,
empty when the component has no dot or only leading dots (CPython's
`genericpath._splitext` rule). -/
def splitext_ext (p : List Char) : List Char :=
  let rb := p.reverse.takeWhile (fun c => !(c = '/' || c = '\\'))
  let pre := rb.takeWhile (fun c => c ≠ '.')
  if pre.length = rb.length then []
  else if (rb.drop (pre.length + 1)).any (fun c => c ≠ '.') then
    (pre ++ ['.']).reverse
  else []

/-- Models a decodable video file as seen through `cv2.VideoCapture`:
the frame count the codec reports through `CAP_PROP_FRAME_COUNT`, and
the number of frames that actually decode. -/
structure Video where
  reported : Nat
  frames : Nat
deriving Repr, DecidableEq

/-- Models `cv2.VideoCapture.read` at a given decode position: it
returns the *pair* `(retval, frame)`, with `retval` true while a frame
decodes (the frame payload is irrelevant here and modelled as `0`). -/
def Video.read (v : Video) (pos : Nat) : Bool × Nat :=
  (pos < v.frames, 0)

/-- Python single-target tuple unpacking `x, = e`: it succeeds only when
`e` yields exactly one element, so applied to a pair — like the result
of `cv2.VideoCapture.read()` — it always raises
`ValueError: too many values to unpack (expected 1)`. -/
def unpackSingle {α β : Type} (_p : α × β) : Except String α :=
  .error "too many values to unpack (expected 1)"

/-- Python `x or d` for an optional integer `x`: `None` and `0` are
falsy, every other integer is returned as is. -/
def pyOrInt (x : Option Int) (d : Int) : Int :=
  match x with
  | none => d
  | some n => if n = 0 then d else n

/-- Embeds the state of `video_skimmer.VideoSkimmer`: the selected
video, frame counters, the frame slider, the frame spin box and the
preview surface (tracked as the frame index it last rendered). -/
structure VideoSkimmer where
  video_path : Option String
  video : Option Video
  current_frame : Int
  total_frames : Int
  slider : AdjustableRangeSlider
  spinbox_min : Int
  spinbox_max : Int
  spinbox_val : Int
  preview : Option Int
deriving Repr, DecidableEq

namespace VideoSkimmer

/-- Embeds `VideoSkimmer.__init__`: no video, `_current_frame = -1`,
`_total_frames = 0`, a fresh frame slider, and Qt-default spin box
range `[0, 99]` with value `0`. -/
def init : VideoSkimmer where
  video_path := none
  video := none
  current_frame := -1
  total_frames := 0
  slider := AdjustableRangeSlider.init
  spinbox_min := 0
  spinbox_max := 99
  spinbox_val := 0
  preview := none

/-- Embeds `VideoSkimmer.is_supported_file`: the lower-cased extension
must be `.mp4` or `.avi`. -/
def is_supported_file (path : String) : Bool :=
  let ext := (splitext_ext path.toList).map Char.toLower
  ext = ".mp4".toList || ext = ".avi".toList

/-- Embeds `VideoSkimmer.has_video`. -/
def has_video (s : VideoSkimmer) : Bool :=
  s.video_path.isSome && s.video.isSome

/-- Embeds `VideoSkimmer.get_largest_frame`: `self._total_frames - 1`. -/
def get_largest_frame (s : VideoSkimmer) : Int :=
  s.total_frames - 1

/-- Embeds `VideoSkimmer.in_frame_range`: containment in the frame
slider's current range. -/
def in_frame_range (s : VideoSkimmer) (frame_num : Int) : Bool :=
  s.slider.range.contains frame_num

/-- Embeds `VideoSkimmer.set_frame`. -/
def set_frame (s : VideoSkimmer) (frame_num : Int)
    (assume_closest : Bool := true) (autoupdate_preview : Bool := true) :
    Except String VideoSkimmer := do
  if !s.has_video then
    .ok s
  else do
    let frame_num ←
      if assume_closest then
        .ok (if frame_num < s.slider.range.min then s.slider.range.min
          else if frame_num > s.slider.range.max then s.slider.range.max
          else frame_num)
      else if !(s.slider.range.contains frame_num) then
        .error ("When assume_closest=False, provided frame_num must be " ++
          "within the inclusive range " ++ s.slider.range.str ++ ".")
      else
        .ok frame_num
    let s := { s with current_frame := frame_num, spinbox_val := frame_num }
    .ok (if autoupdate_preview then { s with preview := some frame_num } else s)

/-- Embeds `VideoSkimmer.next_frame`: a no-op when the next frame falls
outside the active frame range. -/
def next_frame (s : VideoSkimmer) (autoupdate_preview : Bool := true) :
    Except String VideoSkimmer :=
  if !(s.in_frame_range (s.current_frame + 1)) then
    .ok s
  else
    s.set_frame (s.current_frame + 1) true autoupdate_preview

/-- Embeds `VideoSkimmer.prev_frame`. -/
def prev_frame (s : VideoSkimmer) (autoupdate_preview : Bool := true) :
    Except String VideoSkimmer :=
  if !(s.in_frame_range (s.current_frame - 1)) then
    .ok s
  else
    s.set_frame (s.current_frame - 1) true autoupdate_preview

/-- Embeds `VideoSkimmer.set_frame_range`: builds
`InclusiveInterval(start or 0, stop or self.get_largest_frame())` and
applies it to the frame slider's range and the spin box's range. -/
def set_frame_range (s : VideoSkimmer)
    (start : Option Int := none) (stop : Option Int := none) :
    Except String VideoSkimmer := do
  let new_range ← InclusiveInterval.construct
    (pyOrInt start 0) (pyOrInt stop s.get_largest_frame)
  let slider ← s.slider.set_range new_range.min new_range.max
  .ok { s with
    slider := slider
    spinbox_min := new_range.min
    spinbox_max := new_range.max }

/-- The tail of `VideoSkimmer.set_video` after the frame count is known:
`set_range_bounds(0, largest)`, `set_frame_range()`, `set_frame(0)`. -/
def set_video_tail (s : VideoSkimmer) : Except String VideoSkimmer := do
  let slider ← s.slider.set_range_bounds 0 s.get_largest_frame
  let s := { s with slider := slider }
  let s ← s.set_frame_range
  s.set_frame 0

/-- Dead code in `VideoSkimmer.set_video`: the manual frame-counting
`while ret:` loop.  Each iteration increments the total and re-runs the
single-target unpack `ret, = self._video.read()`, which always raises;
the loop is fuelled by the (finite) number of decodable frames. -/
def count_frames (v : Video) : Bool → Int → Nat → Except String Int
  | false, total, _ => .ok total
  | true, total, 0 => .ok (total + 1)
  | true, total, fuel + 1 =>
    let total := total + 1
    do
      let ret ← unpackSingle (v.read 0)
      count_frames v ret total fuel

/-- Embeds `VideoSkimmer.set_video`.  The filesystem is passed in as
`path_exists`, and the opened capture as `v`. -/
def set_video (s : VideoSkimmer) (path : String) (path_exists : Bool)
    (v : Video) : Except String VideoSkimmer := do
  if !path_exists then
    .error ("'" ++ path ++ "' does not exist!")
  else if !(is_supported_file path) then
    .error ("Video is not of a known supported type. " ++
      "Current supported types are: ('.mp4', '.avi')")
  else do
    let s := { s with
      video_path := some path
      video := some v
      total_frames := Int.ofNat v.reported }
    if s.total_frames = 0 then do
      -- `ret, = self._video.read()`: cv2's `read` returns the pair
      -- `(retval, frame)`, so this single-target unpack raises
      -- ValueError before any frame is counted, and the counting loop
      -- below is never entered.
      let ret ← unpackSingle (v.read 0)
      let total ← count_frames v ret 0 v.frames
      set_video_tail { s with total_frames := total }
    else
      set_video_tail s

end VideoSkimmer

/-- Embeds the list-of-characters split underlying
`path.split(sep)` for a one-character separator. -/
def splitChar (sep : Char) : List Char → List (List Char)
  | [] => [[]]
  | c :: cs =>
    match splitChar sep cs with
    | [] => [[]]
    | g :: gs => if c = sep then [] :: g :: gs else (c :: g) :: gs

/-- Embeds `os.path.sep.join(parts)` for the one-character separator
`os.path.sep`. -/
def joinChar (sep : Char) : List (List Char) → List Char
  | [] => []
  | [g] => g
  | g :: gs => g ++ sep :: joinChar sep gs

/-- The message of the `ValueError` raised by `misc.to_os_dir_sep` on a
mixed-separator path: `"<path>" may not contain both "\" and "/"!`. -/
def mixed_sep_msg (path : List Char) : List Char :=
  '"' :: path ++ ("\" may not contain both \"\\\" and \"/\"!").toList

/-- Embeds `misc.to_os_dir_sep` over character lists, parameterised by
the host separator `os.path.sep` (a single character, `/` or `\`). -/
def to_os_dir_sep (os_sep : Char) (path : List Char) :
    Except (List Char) (List Char) :=
  if '\\' ∈ path ∧ '/' ∈ path then
    .error (mixed_sep_msg path)
  else
    let sep := if '\\' ∈ path then '\\' else '/'
    .ok (joinChar os_sep (splitChar sep path))

/-! ## General lemmas about the embedded operations -/

/-- Reduction of `Except` bind on a success value. -/
@[simp] theorem eBind_ok {ε α β : Type} (a : α) (f : α → Except ε β) :
    (Except.ok a : Except ε α) >>= f = f a := rfl

/-- Reduction of `Except` bind on an error value. -/
@[simp] theorem eBind_error {ε α β : Type} (e : ε) (f : α → Except ε β) :
    (Except.error e : Except ε α) >>= f = Except.error e := rfl

namespace InclusiveInterval

/-- `construct` succeeds on an ordered pair of bounds. -/
theorem construct_ok {a b : Int} (h : a ≤ b) :
    construct a b = .ok ⟨a, b⟩ := by
  simp [construct, set, not_lt.2 h]

/-- `construct` fails on a reversed pair of bounds. -/
theorem construct_err {a b : Int} (h : b < a) :
    construct a b = .error "min_ cannot be greater than max_" := by
  simp [construct, set, h]

/-- `normalize` against any interval argument succeeds whenever the
receiver is well formed, and returns the pointwise union bound. -/
theorem normalize_ok (I J : InclusiveInterval) (hI : I.min ≤ I.max) :
    I.normalize J = .ok ⟨Min.min I.min J.min, Max.max I.max J.max⟩ := by
  obtain ⟨a, b⟩ := I
  obtain ⟨c, d⟩ := J
  simp only [normalize, setMax, setMin] at *
  split_ifs with h1 h2 <;>
    simp only [eBind_ok, eBind_error] <;>
    (try split_ifs with h3 h4) <;>
    simp_all [mk.injEq] <;> omega

end InclusiveInterval

/-! ## The claims -/

/-- C2: for well-formed intervals `I` and `J`, `I.normalize(J)` yields
exactly `[min(I.min, J.min), max(I.max, J.max)]`; that interval contains
`J` and the pre-normalize `I`, and any interval `L` containing both `I`
and `J` also contains it — so no strictly tighter interval containing
both exists (normalize only grows, never shrinks). -/
theorem normalize_union_bound_spec (I J L : InclusiveInterval)
    (hI : I.min ≤ I.max) (_hJ : J.min ≤ J.max)
    (hLI : L.containsIv I = true) (hLJ : L.containsIv J = true) :
    I.normalize J = .ok ⟨Min.min I.min J.min, Max.max I.max J.max⟩ ∧
    InclusiveInterval.containsIv
      ⟨Min.min I.min J.min, Max.max I.max J.max⟩ J = true ∧
    InclusiveInterval.containsIv
      ⟨Min.min I.min J.min, Max.max I.max J.max⟩ I = true ∧
    L.containsIv ⟨Min.min I.min J.min, Max.max I.max J.max⟩ = true := by
  refine ⟨I.normalize_ok J hI, ?_, ?_, ?_⟩ <;>
    simp only [InclusiveInterval.containsIv, Bool.and_eq_true,
      decide_eq_true_eq] at * <;> omega

/-- Witness for C2 at `I = [0, 5]`, `J = [3, 9]`, `L = [-1, 10]`. -/
theorem normalize_union_bound_spec_witness :
    InclusiveInterval.normalize ⟨0, 5⟩ ⟨3, 9⟩ =
      .ok ⟨Min.min (0 : Int) 3, Max.max (5 : Int) 9⟩ ∧
    InclusiveInterval.containsIv
      ⟨Min.min (0 : Int) 3, Max.max (5 : Int) 9⟩ ⟨3, 9⟩ = true ∧
    InclusiveInterval.containsIv
      ⟨Min.min (0 : Int) 3, Max.max (5 : Int) 9⟩ ⟨0, 5⟩ = true ∧
    InclusiveInterval.containsIv
      ⟨-1, 10⟩ ⟨Min.min (0 : Int) 3, Max.max (5 : Int) 9⟩ = true :=
  normalize_union_bound_spec ⟨0, 5⟩ ⟨3, 9⟩ ⟨-1, 10⟩
    (by decide) (by decide) (by decide) (by decide)

/-- C3: for all integers `a`, `b`, `set(a, b)` (and the constructor,
which delegates to it) succeeds with `min = a`, `max = b` exactly when
`a ≤ b`, and raises the range `ValueError` when `a > b`; the check
precedes both assignments, so a failing `set` is atomic — the `.error`
result carries no partially updated state and the caller keeps the
untouched interval. -/
theorem interval_set_validation_spec (I : InclusiveInterval) (a b : Int) :
    (a ≤ b → I.set a b = .ok ⟨a, b⟩ ∧
      InclusiveInterval.construct a b = .ok ⟨a, b⟩) ∧
    (b < a → I.set a b = .error "min_ cannot be greater than max_" ∧
      InclusiveInterval.construct a b =
        .error "min_ cannot be greater than max_") := by
  constructor
  · intro h
    exact ⟨by simp [InclusiveInterval.set, not_lt.2 h],
      InclusiveInterval.construct_ok h⟩
  · intro h
    exact ⟨by simp [InclusiveInterval.set, h],
      InclusiveInterval.construct_err h⟩

/-- Witness for C3 at `a = 1 ≤ b = 2` and at `a = 5 > b = 3`. -/
theorem interval_set_validation_spec_witness :
    (InclusiveInterval.set ⟨0, 0⟩ 1 2 = .ok ⟨1, 2⟩ ∧
      InclusiveInterval.construct 1 2 = .ok ⟨1, 2⟩) ∧
    (InclusiveInterval.set ⟨0, 0⟩ 5 3 =
        .error "min_ cannot be greater than max_" ∧
      InclusiveInterval.construct 5 3 =
        .error "min_ cannot be greater than max_") :=
  ⟨(interval_set_validation_spec ⟨0, 0⟩ 1 2).1 (by decide),
   (interval_set_validation_spec ⟨0, 0⟩ 5 3).2 (by decide)⟩

end NapariDLC
namespace NapariDLC

/-- C1 (code bug): `set_range_bounds(0, 50)` on a slider whose current
range is `[60, 70]` (inside the old bounds `[0, 99]`) returns normally
with the current range left at `[0, 70]` — NOT contained in the new
bounds `[0, 50]`: `normalize` only widens the range, it never clips it
into the new bounds, contradicting both the spec's invariant and the
method's own docstring ("self.range is automatically normalized to the
new range_bounds to guarantee it fits within them"). -/
theorem set_range_bounds_containment_bug :
    AdjustableRangeSlider.set_range_bounds
      { range := ⟨60, 70⟩, range_bounds := ⟨0, 99⟩,
        range_min_line_edit := "60", range_max_line_edit := "70",
        slider_min := 60, slider_max := 70, emits := 0 } 0 50 true =
      .ok { range := ⟨0, 70⟩, range_bounds := ⟨0, 50⟩,
            range_min_line_edit := "0", range_max_line_edit := "70",
            slider_min := 0, slider_max := 70, emits := 1 } ∧
    InclusiveInterval.containsIv ⟨0, 50⟩ ⟨0, 70⟩ = false := by
  exact ⟨rfl, rfl⟩

/-- C4: with `min_ ≤ max_` and well-formed bounds,
`set_range(min_, max_, stretch_bounds=True)` unconditionally installs
`[min_, max_]` as the current range and widens the bounds via
`normalize` to cover it; with `stretch_bounds=False` the candidate is
installed iff it is contained in the existing bounds, and otherwise a
`ValueError` naming the requested range and the current bounds is
raised before any state is modified (the `.error` carries no updated
state, so the current range is unchanged). -/
theorem set_range_spec (s : AdjustableRangeSlider) (min_ max_ : Int)
    (emit : Bool) (h : min_ ≤ max_)
    (hb : s.range_bounds.min ≤ s.range_bounds.max) :
    (s.set_range min_ max_ true emit =
      .ok (AdjustableRangeSlider.update_widgets
        { s with range := ⟨min_, max_⟩,
                 range_bounds := ⟨Min.min s.range_bounds.min min_,
                   Max.max s.range_bounds.max max_⟩,
                 emits := if emit then s.emits + 1 else s.emits }) ∧
      InclusiveInterval.containsIv
        ⟨Min.min s.range_bounds.min min_, Max.max s.range_bounds.max max_⟩
        ⟨min_, max_⟩ = true) ∧
    (s.range_bounds.containsIv ⟨min_, max_⟩ = true →
      s.set_range min_ max_ false emit =
        .ok (AdjustableRangeSlider.update_widgets
          { s with range := ⟨min_, max_⟩,
                   emits := if emit then s.emits + 1 else s.emits })) ∧
    (s.range_bounds.containsIv ⟨min_, max_⟩ = false →
      s.set_range min_ max_ false emit =
        .error ("When stretch_bounds=False, new range [" ++ toString min_ ++
          ", " ++ toString max_ ++ "] must fit within absolute range " ++
          s.range_bounds.str)) := by
  obtain ⟨r, b, tmin, tmax, smin, smax, em⟩ := s
  refine ⟨⟨?_, ?_⟩, ?_, ?_⟩
  · simp only [AdjustableRangeSlider.set_range,
      InclusiveInterval.construct_ok h, eBind_ok,
      InclusiveInterval.normalize_ok b ⟨min_, max_⟩ hb]
    cases emit <;> rfl
  · simp only [InclusiveInterval.containsIv, Bool.and_eq_true,
      decide_eq_true_eq]
    omega
  · intro hc
    simp only [AdjustableRangeSlider.set_range,
      InclusiveInterval.construct_ok h, eBind_ok, Bool.false_eq_true,
      if_false, hc, if_true]
    cases emit <;> rfl
  · intro hc
    simp only [AdjustableRangeSlider.set_range,
      InclusiveInterval.construct_ok h, eBind_ok, Bool.false_eq_true,
      if_false, hc]
    rfl

end NapariDLC
namespace NapariDLC

/-- Witness for C4: slider with range `[10, 20]`, bounds `[0, 99]`;
stretch install of `[30, 40]`, plain install of `[30, 40]` (contained),
and rejection of `[-5, 40]` (escapes the bounds). -/
theorem set_range_spec_witness :
    (AdjustableRangeSlider.set_range
        { range := ⟨10, 20⟩, range_bounds := ⟨0, 99⟩,
          range_min_line_edit := "10", range_max_line_edit := "20",
          slider_min := 10, slider_max := 20, emits := 0 } 30 40 true true =
      .ok (AdjustableRangeSlider.update_widgets
        { range := ⟨30, 40⟩, range_bounds := ⟨Min.min 0 30, Max.max 99 40⟩,
          range_min_line_edit := "10", range_max_line_edit := "20",
          slider_min := 10, slider_max := 20, emits := 0 + 1 })) ∧
    (AdjustableRangeSlider.set_range
        { range := ⟨10, 20⟩, range_bounds := ⟨0, 99⟩,
          range_min_line_edit := "10", range_max_line_edit := "20",
          slider_min := 10, slider_max := 20, emits := 0 } 30 40 false true =
      .ok (AdjustableRangeSlider.update_widgets
        { range := ⟨30, 40⟩, range_bounds := ⟨0, 99⟩,
          range_min_line_edit := "10", range_max_line_edit := "20",
          slider_min := 10, slider_max := 20, emits := 0 + 1 })) ∧
    (AdjustableRangeSlider.set_range
        { range := ⟨10, 20⟩, range_bounds := ⟨0, 99⟩,
          range_min_line_edit := "10", range_max_line_edit := "20",
          slider_min := 10, slider_max := 20, emits := 0 } (-5) 40 false true =
      .error ("When stretch_bounds=False, new range [" ++ toString (-5 : Int) ++
        ", " ++ toString (40 : Int) ++ "] must fit within absolute range " ++
        InclusiveInterval.str ⟨0, 99⟩)) :=
  ⟨(set_range_spec _ 30 40 true (by decide) (by decide)).1.1,
   (set_range_spec _ 30 40 true (by decide) (by decide)).2.1 (by decide),
   (set_range_spec _ (-5) 40 true (by decide) (by decide)).2.2 (by decide)⟩

/-- C5: committing integer text `text` (parsing to `v`) in the min
field: if `v` exceeds the current max or escapes the range bounds, the
commit is rejected — the current range is untouched, the field text
reverts to the previous `current.min`, and no `rangeChanged` emission
happens (the state, `emits` counter included, changes only in the
reverted field text); otherwise `current.min` becomes `v`, the slider
range is updated and `rangeChanged` is emitted once. -/
theorem min_field_commit_spec (s : AdjustableRangeSlider)
    (text : String) (v : Int) (hparse : pyInt? text = some v) :
    (v > s.range.max ∨ s.range_bounds.contains v = false →
      s.commit_min text =
        .ok { s with range_min_line_edit := toString s.range.min }) ∧
    (v ≤ s.range.max → s.range_bounds.contains v = true →
      s.commit_min text =
        .ok { s with range := ⟨v, s.range.max⟩,
                     range_min_line_edit := text,
                     slider_min := v, slider_max := s.range.max,
                     emits := s.emits + 1 }) := by
  constructor
  · intro hrej
    simp only [AdjustableRangeSlider.commit_min,
      AdjustableRangeSlider.min_edited, hparse, eBind_ok]
    split_ifs with hif
    · rfl
    · exfalso
      simp only [Bool.or_eq_true, decide_eq_true_eq, Bool.not_eq_true',
        InclusiveInterval.contains, Bool.and_eq_true,
        Bool.and_eq_false_iff, decide_eq_false_iff_not,
        not_or, Bool.not_eq_true] at hif hrej
      omega
  · intro hle hcont
    simp only [AdjustableRangeSlider.commit_min,
      AdjustableRangeSlider.min_edited, hparse, eBind_ok]
    split_ifs with hif
    · exfalso
      simp only [Bool.or_eq_true, decide_eq_true_eq, Bool.not_eq_true',
        InclusiveInterval.contains, Bool.and_eq_true,
        Bool.and_eq_false_iff, decide_eq_false_iff_not] at hif hcont
      omega
    · simp only [InclusiveInterval.setMin]
      split_ifs with h2
      · simp only [decide_eq_true_eq] at h2
        omega
      · rfl

end NapariDLC
namespace NapariDLC

/-- C7 counterexample: on a freshly constructed `VideoSkimmer` (no video
loaded) the target frame `current + 1 = 0` lies inside the active frame
range `[0, 0]`, yet `next_frame()` leaves the current frame at `-1`
instead of advancing by one (`set_frame` is a no-op without a video), so
the claim's "when the target stays within the active frame range, the
current frame advances by exactly one" is false as stated. -/
theorem frame_step_no_video_cex :
    VideoSkimmer.next_frame VideoSkimmer.init true = .ok VideoSkimmer.init ∧
    VideoSkimmer.init.in_frame_range
      (VideoSkimmer.init.current_frame + 1) = true ∧
    VideoSkimmer.init.current_frame = -1 := by
  exact ⟨rfl, rfl, rfl⟩

/-- C7 (amended): when the target frame lies outside the active frame
range, `next_frame()` / `prev_frame()` leave the current frame unchanged
and raise no error; when no video is loaded they never change the state
at all; and when a video is loaded and the target stays within the
active frame range, the current frame advances (retreats) by exactly
one. -/
theorem frame_step_spec (s : VideoSkimmer) :
    (s.in_frame_range (s.current_frame + 1) = false →
      s.next_frame true = .ok s) ∧
    (s.in_frame_range (s.current_frame - 1) = false →
      s.prev_frame true = .ok s) ∧
    (s.has_video = false →
      s.next_frame true = .ok s ∧ s.prev_frame true = .ok s) ∧
    (s.has_video = true →
      s.in_frame_range (s.current_frame + 1) = true →
      s.next_frame true = .ok { s with
        current_frame := s.current_frame + 1,
        spinbox_val := s.current_frame + 1,
        preview := some (s.current_frame + 1) }) ∧
    (s.has_video = true →
      s.in_frame_range (s.current_frame - 1) = true →
      s.prev_frame true = .ok { s with
        current_frame := s.current_frame - 1,
        spinbox_val := s.current_frame - 1,
        preview := some (s.current_frame - 1) }) := by
  refine ⟨?_, ?_, ?_, ?_, ?_⟩
  · intro h
    simp [VideoSkimmer.next_frame, h]
  · intro h
    simp [VideoSkimmer.prev_frame, h]
  · intro h
    constructor <;>
      [simp only [VideoSkimmer.next_frame];
       simp only [VideoSkimmer.prev_frame]] <;>
      split_ifs <;>
      simp [VideoSkimmer.set_frame, h]
  · intro hv hin
    simp only [VideoSkimmer.in_frame_range, InclusiveInterval.contains,
      Bool.and_eq_true, decide_eq_true_eq] at hin
    simp [VideoSkimmer.next_frame, VideoSkimmer.set_frame, hv,
      VideoSkimmer.in_frame_range, InclusiveInterval.contains, hin]
    split_ifs <;> omega
  · intro hv hin
    simp only [VideoSkimmer.in_frame_range, InclusiveInterval.contains,
      Bool.and_eq_true, decide_eq_true_eq] at hin
    simp [VideoSkimmer.prev_frame, VideoSkimmer.set_frame, hv,
      VideoSkimmer.in_frame_range, InclusiveInterval.contains, hin]
    split_ifs <;> omega

end NapariDLC
namespace NapariDLC

/-- Witness for C7 at a loaded 3-frame video with active range `[0, 2]`:
advancing from frame 1 reaches frame 2; at frame 2 `next_frame` is a
no-op; and the fresh, video-less skimmer never moves. -/
theorem frame_step_spec_witness :
    (VideoSkimmer.next_frame
      { video_path := some "v.mp4", video := some ⟨3, 3⟩,
        current_frame := 1, total_frames := 3,
        slider := { range := ⟨0, 2⟩, range_bounds := ⟨0, 2⟩,
                    range_min_line_edit := "0", range_max_line_edit := "2",
                    slider_min := 0, slider_max := 2, emits := 0 },
        spinbox_min := 0, spinbox_max := 2, spinbox_val := 1,
        preview := none } true =
      .ok { video_path := some "v.mp4", video := some ⟨3, 3⟩,
            current_frame := 1 + 1, total_frames := 3,
            slider := { range := ⟨0, 2⟩, range_bounds := ⟨0, 2⟩,
                        range_min_line_edit := "0", range_max_line_edit := "2",
                        slider_min := 0, slider_max := 2, emits := 0 },
            spinbox_min := 0, spinbox_max := 2, spinbox_val := 1 + 1,
            preview := some (1 + 1) }) ∧
    (VideoSkimmer.next_frame
      { video_path := some "v.mp4", video := some ⟨3, 3⟩,
        current_frame := 2, total_frames := 3,
        slider := { range := ⟨0, 2⟩, range_bounds := ⟨0, 2⟩,
                    range_min_line_edit := "0", range_max_line_edit := "2",
                    slider_min := 0, slider_max := 2, emits := 0 },
        spinbox_min := 0, spinbox_max := 2, spinbox_val := 2,
        preview := none } true =
      .ok { video_path := some "v.mp4", video := some ⟨3, 3⟩,
            current_frame := 2, total_frames := 3,
            slider := { range := ⟨0, 2⟩, range_bounds := ⟨0, 2⟩,
                        range_min_line_edit := "0", range_max_line_edit := "2",
                        slider_min := 0, slider_max := 2, emits := 0 },
            spinbox_min := 0, spinbox_max := 2, spinbox_val := 2,
            preview := none }) ∧
    (VideoSkimmer.next_frame VideoSkimmer.init true = .ok VideoSkimmer.init ∧
      VideoSkimmer.prev_frame VideoSkimmer.init true = .ok VideoSkimmer.init) :=
  ⟨(frame_step_spec _).2.2.2.1 (by decide) (by decide),
   (frame_step_spec _).1 (by decide),
   (frame_step_spec _).2.2.1 (by decide)⟩

/-- C8: with a well-formed active range, `set_frame(frame_num,
assume_closest=True)` never errors and installs `frame_num` clamped into
the active frame range (`max(range.min, min(frame_num, range.max))`, the
nearest boundary when out of range); `set_frame(frame_num,
assume_closest=False)` raises the range `ValueError` exactly when
`frame_num` is outside the active frame range; and with no video loaded,
`set_frame` does nothing and raises no error in either mode. -/
theorem set_frame_spec (s : VideoSkimmer) (frame_num : Int)
    (hr : s.slider.range.min ≤ s.slider.range.max) :
    (s.has_video = false →
      s.set_frame frame_num true true = .ok s ∧
      s.set_frame frame_num false true = .ok s) ∧
    (s.has_video = true →
      (s.set_frame frame_num true true = .ok { s with
        current_frame := Max.max s.slider.range.min
          (Min.min frame_num s.slider.range.max),
        spinbox_val := Max.max s.slider.range.min
          (Min.min frame_num s.slider.range.max),
        preview := some (Max.max s.slider.range.min
          (Min.min frame_num s.slider.range.max)) }) ∧
      (s.slider.range.contains frame_num = true →
        s.set_frame frame_num false true = .ok { s with
          current_frame := frame_num, spinbox_val := frame_num,
          preview := some frame_num }) ∧
      (s.slider.range.contains frame_num = false →
        s.set_frame frame_num false true =
          .error ("When assume_closest=False, provided frame_num must be " ++
            "within the inclusive range " ++ s.slider.range.str ++ "."))) := by
  refine ⟨?_, fun hv => ⟨?_, ?_, ?_⟩⟩
  · intro h
    constructor <;> simp [VideoSkimmer.set_frame, h]
  · simp only [VideoSkimmer.set_frame, hv, Bool.not_true,
      Bool.false_eq_true, if_false, if_true, eBind_ok]
    split_ifs <;> simp_all <;> omega
  · intro hcont
    simp [VideoSkimmer.set_frame, hv, hcont]
  · intro hcont
    simp [VideoSkimmer.set_frame, hv, hcont]

end NapariDLC
namespace NapariDLC

/-- Witness for C8 at a loaded 3-frame video with active range `[0, 2]`:
`set_frame(-7)` clamps to 0, strict `set_frame(2, False)` succeeds,
strict `set_frame(5, False)` raises the range error, and the video-less
skimmer ignores both modes. -/
theorem set_frame_spec_witness :
    (VideoSkimmer.set_frame
      { video_path := some "v.mp4", video := some ⟨3, 3⟩,
        current_frame := 1, total_frames := 3,
        slider := { range := ⟨0, 2⟩, range_bounds := ⟨0, 2⟩,
                    range_min_line_edit := "0", range_max_line_edit := "2",
                    slider_min := 0, slider_max := 2, emits := 0 },
        spinbox_min := 0, spinbox_max := 2, spinbox_val := 1,
        preview := none } (-7) true true =
      .ok { video_path := some "v.mp4", video := some ⟨3, 3⟩,
            current_frame := 0, total_frames := 3,
            slider := { range := ⟨0, 2⟩, range_bounds := ⟨0, 2⟩,
                        range_min_line_edit := "0", range_max_line_edit := "2",
                        slider_min := 0, slider_max := 2, emits := 0 },
            spinbox_min := 0, spinbox_max := 2, spinbox_val := 0,
            preview := some 0 }) ∧
    (VideoSkimmer.set_frame
      { video_path := some "v.mp4", video := some ⟨3, 3⟩,
        current_frame := 1, total_frames := 3,
        slider := { range := ⟨0, 2⟩, range_bounds := ⟨0, 2⟩,
                    range_min_line_edit := "0", range_max_line_edit := "2",
                    slider_min := 0, slider_max := 2, emits := 0 },
        spinbox_min := 0, spinbox_max := 2, spinbox_val := 1,
        preview := none } 2 false true =
      .ok { video_path := some "v.mp4", video := some ⟨3, 3⟩,
            current_frame := 2, total_frames := 3,
            slider := { range := ⟨0, 2⟩, range_bounds := ⟨0, 2⟩,
                        range_min_line_edit := "0", range_max_line_edit := "2",
                        slider_min := 0, slider_max := 2, emits := 0 },
            spinbox_min := 0, spinbox_max := 2, spinbox_val := 2,
            preview := some 2 }) ∧
    (VideoSkimmer.set_frame
      { video_path := some "v.mp4", video := some ⟨3, 3⟩,
        current_frame := 1, total_frames := 3,
        slider := { range := ⟨0, 2⟩, range_bounds := ⟨0, 2⟩,
                    range_min_line_edit := "0", range_max_line_edit := "2",
                    slider_min := 0, slider_max := 2, emits := 0 },
        spinbox_min := 0, spinbox_max := 2, spinbox_val := 1,
        preview := none } 5 false true =
      .error ("When assume_closest=False, provided frame_num must be " ++
        "within the inclusive range " ++ InclusiveInterval.str ⟨0, 2⟩ ++ ".")) ∧
    (VideoSkimmer.set_frame VideoSkimmer.init 5 true true =
        .ok VideoSkimmer.init ∧
      VideoSkimmer.set_frame VideoSkimmer.init 5 false true =
        .ok VideoSkimmer.init) :=
  ⟨(set_frame_spec _ (-7) (by decide)).2 (by decide) |>.1,
   ((set_frame_spec _ 2 (by decide)).2 (by decide)).2.1 (by decide),
   ((set_frame_spec _ 5 (by decide)).2 (by decide)).2.2 (by decide),
   (set_frame_spec VideoSkimmer.init 5 (by decide)).1 (by decide)⟩

/-- C6 (code bug): on an existing, supported video whose codec reports a
frame count of 0 but which has 3 decodable frames, `set_video` does not
fall back to counting frames — the fallback's very first statement
`ret, = self._video.read()` unpacks the pair returned by `read()` into a
single target and raises `ValueError: too many values to unpack
(expected 1)`, so no bounds are reset, no frame is selected, and
`get_largest_frame()` never becomes 2. -/
theorem set_video_count_fallback_bug :
    VideoSkimmer.set_video VideoSkimmer.init "v.mp4" true ⟨0, 3⟩ =
      .error "too many values to unpack (expected 1)" := by
  rfl

end NapariDLC
namespace NapariDLC

/-- `splitChar` never returns the empty list of groups. -/
theorem splitChar_ne_nil (sep : Char) (l : List Char) :
    splitChar sep l ≠ [] := by
  cases l with
  | nil => simp [splitChar]
  | cons c cs =>
    simp only [splitChar]
    cases h : splitChar sep cs with
    | nil => simp
    | cons g gs =>
      simp only [h]
      split_ifs <;> simp

/-- Joining after consing a character onto the head group. -/
theorem joinChar_cons_head (d c : Char) (g : List Char)
    (gs : List (List Char)) :
    joinChar d ((c :: g) :: gs) = c :: joinChar d (g :: gs) := by
  cases gs <;> simp [joinChar]

/-- Joining after an empty head group inserts the separator. -/
theorem joinChar_nil_head (d : Char) (g : List Char)
    (gs : List (List Char)) :
    joinChar d ([] :: g :: gs) = d :: joinChar d (g :: gs) := by
  simp [joinChar]

/-- `split` on a one-character separator followed by `join` with the
host separator replaces exactly the occurrences of that separator. -/
theorem joinChar_splitChar (d sep : Char) (l : List Char) :
    joinChar d (splitChar sep l) =
      l.map (fun c => if c = sep then d else c) := by
  induction l with
  | nil => rfl
  | cons c cs ih =>
    simp only [splitChar, List.map_cons]
    cases h : splitChar sep cs with
    | nil => exact absurd h (splitChar_ne_nil sep cs)
    | cons g gs =>
      rw [h] at ih
      split_ifs with hc
      · rw [joinChar_nil_head, ih]
      · rw [joinChar_cons_head, ih]

/-- C9: `to_os_dir_sep` raises the `ValueError` naming both separator
characters exactly when the path contains both `/` and `\`; otherwise it
returns the path with every occurrence of its single separator style
replaced by the host OS separator. -/
theorem to_os_dir_sep_spec (os_sep : Char) (path : List Char) :
    ('\\' ∈ path ∧ '/' ∈ path →
      to_os_dir_sep os_sep path = .error (mixed_sep_msg path) ∧
      '\\' ∈ mixed_sep_msg path ∧ '/' ∈ mixed_sep_msg path) ∧
    (¬('\\' ∈ path ∧ '/' ∈ path) →
      to_os_dir_sep os_sep path =
        .ok (path.map (fun c =>
          if c = (if '\\' ∈ path then '\\' else '/') then os_sep else c))) := by
  constructor
  · intro h
    refine ⟨by simp [to_os_dir_sep, h], ?_, ?_⟩ <;>
      simp [mixed_sep_msg]
  · intro h
    simp only [to_os_dir_sep, if_neg h, joinChar_splitChar]

/-- Witness for C9: `"a/b\c"` is rejected with the mixed-separator
error, and `"a/b/c"` is rewritten to backslashes on a
backslash-separator host. -/
theorem to_os_dir_sep_spec_witness :
    (to_os_dir_sep '\\' ("a/b\\c".toList) =
        .error (mixed_sep_msg ("a/b\\c".toList)) ∧
      '\\' ∈ mixed_sep_msg ("a/b\\c".toList) ∧
      '/' ∈ mixed_sep_msg ("a/b\\c".toList)) ∧
    (to_os_dir_sep '\\' ("a/b/c".toList) =
      .ok (("a/b/c".toList).map (fun c =>
        if c = (if '\\' ∈ "a/b/c".toList then '\\' else '/')
        then '\\' else c))) :=
  ⟨(to_os_dir_sep_spec '\\' ("a/b\\c".toList)).1 (by decide),
   (to_os_dir_sep_spec '\\' ("a/b/c".toList)).2 (by decide)⟩

end NapariDLC
namespace NapariDLC

/-- Inversion of a successful `construct`. -/
theorem construct_ok_inv {a b : Int} {r : InclusiveInterval}
    (h : InclusiveInterval.construct a b = .ok r) : r = ⟨a, b⟩ ∧ a ≤ b := by
  simp only [InclusiveInterval.construct, InclusiveInterval.set] at h
  split_ifs at h with hab
  all_goals simp_all

/-- A successful non-stretching `set_range` installs exactly the
requested interval as the current range. -/
theorem set_range_ok_range (s : AdjustableRangeSlider) (min_ max_ : Int)
    (emit : Bool) (t : AdjustableRangeSlider)
    (h : s.set_range min_ max_ false emit = .ok t) :
    t.range = ⟨min_, max_⟩ := by
  unfold AdjustableRangeSlider.set_range at h
  cases hc : InclusiveInterval.construct min_ max_ with
  | error e => rw [hc] at h; simp at h
  | ok nr =>
    obtain ⟨hnr, hle⟩ := construct_ok_inv hc
    subst hnr
    rw [hc] at h
    simp only [eBind_ok, Bool.false_eq_true, if_false] at h
    by_cases hcont : s.range_bounds.containsIv ⟨min_, max_⟩ = true
    · rw [if_pos hcont] at h
      simp only [eBind_ok, Except.ok.injEq] at h
      subst h
      cases emit <;> rfl
    · rw [if_neg hcont] at h
      simp at h

/-- C10: for every skimmer state and `start`, `set_frame_range(start, 0)`
behaves identically to `set_frame_range(start)` with `stop` absent —
`0` is falsy in `stop or self.get_largest_frame()` — so on success the
accessible frame range becomes `[start or 0, last frame index]`, never
`[start, 0]`: its upper end is the video's last frame index. -/
theorem set_frame_range_stop_zero_spec (s : VideoSkimmer)
    (start : Option Int) :
    s.set_frame_range start (some 0) = s.set_frame_range start none ∧
    ∀ t, s.set_frame_range start (some 0) = .ok t →
      t.slider.range = ⟨pyOrInt start 0, s.get_largest_frame⟩ ∧
      t.spinbox_min = pyOrInt start 0 ∧
      t.spinbox_max = s.get_largest_frame := by
  constructor
  · rfl
  · intro t h
    unfold VideoSkimmer.set_frame_range at h
    cases hc : InclusiveInterval.construct (pyOrInt start 0)
        (pyOrInt (some 0) s.get_largest_frame) with
    | error e => rw [hc] at h; simp at h
    | ok nr =>
      rw [hc] at h
      simp only [eBind_ok] at h
      obtain ⟨hnr, hle⟩ := construct_ok_inv hc
      cases hs : AdjustableRangeSlider.set_range s.slider nr.min nr.max
          false true with
      | error e => rw [hs] at h; simp at h
      | ok slider2 =>
        rw [hs] at h
        simp only [eBind_ok, Except.ok.injEq] at h
        subst h
        have hrange := set_range_ok_range _ _ _ _ _ hs
        refine ⟨?_, ?_, ?_⟩ <;>
          simp [hrange, hnr, pyOrInt]

/-- Witness for C10 at a loaded 3-frame video: `set_frame_range(None, 0)`
equals `set_frame_range()` and yields the frame range `[0, 2]`. -/
theorem set_frame_range_stop_zero_spec_witness :
    (VideoSkimmer.set_frame_range
      { video_path := some "v.mp4", video := some ⟨3, 3⟩,
        current_frame := 0, total_frames := 3,
        slider := { range := ⟨0, 2⟩, range_bounds := ⟨0, 2⟩,
                    range_min_line_edit := "0", range_max_line_edit := "0",
                    slider_min := 0, slider_max := 99, emits := 0 },
        spinbox_min := 0, spinbox_max := 99, spinbox_val := 0,
        preview := none } none (some 0) =
    VideoSkimmer.set_frame_range
      { video_path := some "v.mp4", video := some ⟨3, 3⟩,
        current_frame := 0, total_frames := 3,
        slider := { range := ⟨0, 2⟩, range_bounds := ⟨0, 2⟩,
                    range_min_line_edit := "0", range_max_line_edit := "0",
                    slider_min := 0, slider_max := 99, emits := 0 },
        spinbox_min := 0, spinbox_max := 99, spinbox_val := 0,
        preview := none } none none) ∧
    (InclusiveInterval.mk 0 2 = ⟨pyOrInt none 0, (3 : Int) - 1⟩ ∧
      (0 : Int) = pyOrInt none 0 ∧
      (2 : Int) = (3 : Int) - 1) :=
  ⟨(set_frame_range_stop_zero_spec
     { video_path := some "v.mp4", video := some ⟨3, 3⟩,
       current_frame := 0, total_frames := 3,
       slider := { range := ⟨0, 2⟩, range_bounds := ⟨0, 2⟩,
                   range_min_line_edit := "0", range_max_line_edit := "0",
                   slider_min := 0, slider_max := 99, emits := 0 },
       spinbox_min := 0, spinbox_max := 99, spinbox_val := 0,
       preview := none } none).1,
   (set_frame_range_stop_zero_spec
     { video_path := some "v.mp4", video := some ⟨3, 3⟩,
       current_frame := 0, total_frames := 3,
       slider := { range := ⟨0, 2⟩, range_bounds := ⟨0, 2⟩,
                   range_min_line_edit := "0", range_max_line_edit := "0",
                   slider_min := 0, slider_max := 99, emits := 0 },
       spinbox_min := 0, spinbox_max := 99, spinbox_val := 0,
       preview := none } none).2
     { video_path := some "v.mp4", video := some ⟨3, 3⟩,
       current_frame := 0, total_frames := 3,
       slider := { range := ⟨0, 2⟩, range_bounds := ⟨0, 2⟩,
                   range_min_line_edit := "0", range_max_line_edit := "2",
                   slider_min := 0, slider_max := 2, emits := 1 },
       spinbox_min := 0, spinbox_max := 2, spinbox_val := 0,
       preview := none } rfl⟩

end NapariDLC
namespace NapariDLC

/-- Witness for C5, the spec scenario: bounds `[0, 99]`, range `[10, 20]`;
committing `"15"` is accepted (range becomes `[15, 20]`, one emission),
then committing `"25"` is rejected and the field reverts to `"15"`. -/
theorem min_field_commit_spec_witness :
    (AdjustableRangeSlider.commit_min
      { range := ⟨10, 20⟩, range_bounds := ⟨0, 99⟩,
        range_min_line_edit := "10", range_max_line_edit := "20",
        slider_min := 10, slider_max := 20, emits := 0 } "15" =
      .ok { range := ⟨15, 20⟩, range_bounds := ⟨0, 99⟩,
            range_min_line_edit := "15", range_max_line_edit := "20",
            slider_min := 15, slider_max := 20, emits := 0 + 1 }) ∧
    (AdjustableRangeSlider.commit_min
      { range := ⟨15, 20⟩, range_bounds := ⟨0, 99⟩,
        range_min_line_edit := "15", range_max_line_edit := "20",
        slider_min := 15, slider_max := 20, emits := 1 } "25" =
      .ok { range := ⟨15, 20⟩, range_bounds := ⟨0, 99⟩,
            range_min_line_edit := "15", range_max_line_edit := "20",
            slider_min := 15, slider_max := 20, emits := 1 }) :=
  ⟨(min_field_commit_spec
      { range := ⟨10, 20⟩, range_bounds := ⟨0, 99⟩,
        range_min_line_edit := "10", range_max_line_edit := "20",
        slider_min := 10, slider_max := 20, emits := 0 } "15" 15
      (by decide)).2 (by decide) (by decide),
   (min_field_commit_spec
      { range := ⟨15, 20⟩, range_bounds := ⟨0, 99⟩,
        range_min_line_edit := "15", range_max_line_edit := "20",
        slider_min := 15, slider_max := 20, emits := 1 } "25" 25
      (by decide)).1 (Or.inl (by decide))⟩

end NapariDLC
